import Mathlib

/-!
Verification of the volunteer record-management core (FakeDatabase store and
the crud repository layer) of the api-voluntarios service, shallowly embedded
in Lean 4.  Python objects are modelled as immutable structures; in-place
mutation of the store becomes explicit state passing, the insertion-ordered
dict of volunteers becomes an id-keyed association list, and raising
ValueError becomes an Except value paired with the (unchanged) store state.
-/

/-- Calendar date (models datetime.date, year-month-day). -/
structure Date where
  year : Nat
  month : Nat
  day : Nat
deriving DecidableEq, Repr

/-- models.Disponibilidade, a closed str enum. -/
inductive Disponibilidade where
  | MANHA
  | TARDE
  | NOITE
  | FIM_SEMANA
  | FLEXIVEL
deriving DecidableEq, Repr

/-- The underlying str value of each Disponibilidade member. -/
def Disponibilidade.value : Disponibilidade → String
  | .MANHA => "manha"
  | .TARDE => "tarde"
  | .NOITE => "noite"
  | .FIM_SEMANA => "fim_de_semana"
  | .FLEXIVEL => "flexivel"

/-- models.StatusVoluntario, a closed str enum. -/
inductive StatusVoluntario where
  | ATIVO
  | INATIVO
  | PENDENTE
deriving DecidableEq, Repr

/-- The underlying str value of each StatusVoluntario member. -/
def StatusVoluntario.value : StatusVoluntario → String
  | .ATIVO => "ativo"
  | .INATIVO => "inativo"
  | .PENDENTE => "pendente"

/-- models.VolunteerInDB: the domain record stored in the fake database.
to_model copies every field unchanged into the Pydantic response model, so a
single structure stands for both. -/
structure Volunteer where
  id : Nat
  nome : String
  email : String
  telefone : String
  cargo_pretendido : String
  disponibilidade : Disponibilidade
  status : StatusVoluntario
  data_inscricao : Date
  is_deleted : Bool
deriving DecidableEq, Repr

/-- Python truthiness of a str: empty strings are falsy. -/
def pyTruthyStr (s : String) : Bool := !(decide (s = ""))

/-- Replace the first element satisfying p by its image under g; model of
mutating, in place, the object found in the dict. -/
def modifyFirst (p : Volunteer → Bool) (g : Volunteer → Volunteer) :
    List Volunteer → List Volunteer
  | [] => []
  | x :: xs => if p x then g x :: xs else x :: modifyFirst p g xs

/-- dict[id] = v on an insertion-ordered id-keyed dict: replace the entry
with that key in place if present, else append at the end. -/
def dictInsert (vs : List Volunteer) (v : Volunteer) : List Volunteer :=
  if vs.any (fun w => decide (w.id = v.id)) then
    modifyFirst (fun w => decide (w.id = v.id)) (fun _ => v) vs
  else vs ++ [v]

/-- database.FakeDatabase: the id-keyed volunteer dict (insertion order
preserved) and the monotonic id counter. -/
structure FakeDatabase where
  volunteers : List Volunteer
  next_id : Nat
deriving DecidableEq, Repr

/-- FakeDatabase._get_next_id: return the counter and advance it by one. -/
def FakeDatabase.get_next_id (db : FakeDatabase) : Nat × FakeDatabase :=
  (db.next_id, { db with next_id := db.next_id + 1 })

/-- FakeDatabase.get_all_volunteers: every record, deleted or not, in
insertion order. -/
def FakeDatabase.get_all_volunteers (db : FakeDatabase) : List Volunteer :=
  db.volunteers

/-- FakeDatabase.get_volunteer: raw dict lookup by id, ignoring is_deleted. -/
def FakeDatabase.get_volunteer (db : FakeDatabase) (volunteer_id : Nat) :
    Option Volunteer :=
  db.volunteers.find? (fun v => decide (v.id = volunteer_id))

/-- FakeDatabase.add_volunteer: overwrite the id of the given record with a
fresh counter value and store it. -/
def FakeDatabase.add_volunteer (db : FakeDatabase) (volunteer : Volunteer) :
    Volunteer × FakeDatabase :=
  let (nid, db1) := db.get_next_id
  let v1 : Volunteer := { volunteer with id := nid }
  (v1, { db1 with volunteers := dictInsert db1.volunteers v1 })

/-- schemas.VolunteerUpdate after model_dump(exclude_unset=True): each field
either supplied with a value (some) or absent / supplied as None (none);
FakeDatabase.update_volunteer skips None values, so the two collapse. -/
structure VolunteerUpdate where
  nome : Option String
  email : Option String
  telefone : Option String
  cargo_pretendido : Option String
  disponibilidade : Option Disponibilidade
  status : Option StatusVoluntario
deriving DecidableEq, Repr

/-- The loop body of FakeDatabase.update_volunteer: setattr for every key of
the payload whose value is not None; id and is_deleted are never among the
payload keys of VolunteerUpdate. -/
def applyUpdateFields (v : Volunteer) (u : VolunteerUpdate) : Volunteer :=
  { v with
    nome := u.nome.getD v.nome
    email := u.email.getD v.email
    telefone := u.telefone.getD v.telefone
    cargo_pretendido := u.cargo_pretendido.getD v.cargo_pretendido
    disponibilidade := u.disponibilidade.getD v.disponibilidade
    status := u.status.getD v.status }

/-- FakeDatabase.update_volunteer: None if the id is absent, else mutate the
stored record field by field and return it. -/
def FakeDatabase.update_volunteer (db : FakeDatabase) (volunteer_id : Nat)
    (u : VolunteerUpdate) : Option Volunteer × FakeDatabase :=
  match db.volunteers.find? (fun v => decide (v.id = volunteer_id)) with
  | none => (none, db)
  | some v =>
    let v1 := applyUpdateFields v u
    (some v1,
     { db with
       volunteers :=
         modifyFirst (fun w => decide (w.id = volunteer_id)) (fun _ => v1)
           db.volunteers })

/-- FakeDatabase.delete_volunteer: False if the id is absent, else set
is_deleted to True and return True. -/
def FakeDatabase.delete_volunteer (db : FakeDatabase) (volunteer_id : Nat) :
    Bool × FakeDatabase :=
  if db.volunteers.any (fun v => decide (v.id = volunteer_id)) then
    (true,
     { db with
       volunteers :=
         modifyFirst (fun v => decide (v.id = volunteer_id))
           (fun v => { v with is_deleted := true }) db.volunteers })
  else (false, db)

/-- FakeDatabase.restore_volunteer: None if the id is absent, else set
is_deleted to False and return the record. -/
def FakeDatabase.restore_volunteer (db : FakeDatabase) (volunteer_id : Nat) :
    Option Volunteer × FakeDatabase :=
  match db.volunteers.find? (fun v => decide (v.id = volunteer_id)) with
  | none => (none, db)
  | some v =>
    (some { v with is_deleted := false },
     { db with
       volunteers :=
         modifyFirst (fun w => decide (w.id = volunteer_id))
           (fun w => { w with is_deleted := false }) db.volunteers })

/-- FakeDatabase.email_exists: an exact string comparison against the emails
of non-deleted records, optionally excluding one id. -/
def FakeDatabase.email_exists (db : FakeDatabase) (email : String)
    (exclude_id : Option Nat) : Bool :=
  db.volunteers.any (fun v =>
    decide (v.email = email) && !v.is_deleted &&
    (match exclude_id with
     | none => true
     | some x => decide (v.id ≠ x)))

/-- FakeDatabase.__init__ together with _initialize_data: start the counter
at 1, draw five ids from it for the seed records and store them. -/
def FakeDatabase.init : FakeDatabase :=
  let db0 : FakeDatabase := { volunteers := [], next_id := 1 }
  let (i1, db1) := db0.get_next_id
  let v1 : Volunteer :=
    { id := i1, nome := "João Silva", email := "joao@email.com",
      telefone := "(11) 99999-9999", cargo_pretendido := "Instrutor",
      disponibilidade := .MANHA, status := .ATIVO,
      data_inscricao := ⟨2023, 1, 15⟩, is_deleted := false }
  let (i2, db2) := db1.get_next_id
  let v2 : Volunteer :=
    { id := i2, nome := "Maria Santos", email := "maria@email.com",
      telefone := "(11) 98888-8888", cargo_pretendido := "Organizador",
      disponibilidade := .TARDE, status := .ATIVO,
      data_inscricao := ⟨2023, 2, 20⟩, is_deleted := false }
  let (i3, db3) := db2.get_next_id
  let v3 : Volunteer :=
    { id := i3, nome := "Carlos Oliveira", email := "carlos@email.com",
      telefone := "(11) 97777-7777", cargo_pretendido := "Suporte",
      disponibilidade := .NOITE, status := .INATIVO,
      data_inscricao := ⟨2023, 3, 10⟩, is_deleted := false }
  let (i4, db4) := db3.get_next_id
  let v4 : Volunteer :=
    { id := i4, nome := "Ana Costa", email := "ana@email.com",
      telefone := "(11) 96666-6666", cargo_pretendido := "Instrutor",
      disponibilidade := .FIM_SEMANA, status := .PENDENTE,
      data_inscricao := ⟨2023, 4, 5⟩, is_deleted := false }
  let (i5, db5) := db4.get_next_id
  let v5 : Volunteer :=
    { id := i5, nome := "Pedro Rocha", email := "pedro@email.com",
      telefone := "(11) 95555-5555", cargo_pretendido := "Coordenador",
      disponibilidade := .FLEXIVEL, status := .ATIVO,
      data_inscricao := ⟨2023, 5, 12⟩, is_deleted := true }
  [v1, v2, v3, v4, v5].foldl
    (fun d v => { d with volunteers := dictInsert d.volunteers v }) db5

/-- str.strip modelled on the character list of a str: drop leading and
trailing whitespace. -/
def pyStrip (s : String) : String :=
  String.mk
    (((s.data.dropWhile Char.isWhitespace).reverse.dropWhile
        Char.isWhitespace).reverse)

/-- str.lower modelled on the character list of a str. -/
def pyLower (s : String) : String :=
  String.mk (s.data.map Char.toLower)

/-- schemas.VolunteerBase.validate_email: reject strings without an @ sign,
otherwise strip surrounding whitespace and lowercase. -/
def validate_email (v : String) : Except String String :=
  if !(v.data.contains '@') then Except.error "Email inválido"
  else Except.ok (pyLower (pyStrip v))

/-- schemas.VolunteerCreate: the validated creation payload. -/
structure VolunteerCreate where
  nome : String
  email : String
  telefone : String
  cargo_pretendido : String
  disponibilidade : Disponibilidade
  status : StatusVoluntario
deriving DecidableEq, Repr

/-- The filter query parameters of GET /voluntarios/ as crud.get_volunteers
receives them through **filters: an enum or None for status and
disponibilidade, a str or None for cargo_pretendido. -/
structure Filters where
  status : Option StatusVoluntario
  cargo_pretendido : Option String
  disponibilidade : Option Disponibilidade
deriving DecidableEq, Repr

/-- The first continue-guard of the loop in crud.get_volunteers:
filters.get("status") and vol.status != filters["status"].  An enum member
is truthy exactly when its str value is nonempty. -/
def dropByStatus (f : Filters) (v : Volunteer) : Bool :=
  match f.status with
  | none => false
  | some s => pyTruthyStr s.value && decide (v.status ≠ s)

/-- The second continue-guard: filters.get("cargo_pretendido") and
vol.cargo_pretendido != filters["cargo_pretendido"], with str truthiness. -/
def dropByCargo (f : Filters) (v : Volunteer) : Bool :=
  match f.cargo_pretendido with
  | none => false
  | some c => pyTruthyStr c && decide (v.cargo_pretendido ≠ c)

/-- The third continue-guard: filters.get("disponibilidade") and
vol.disponibilidade != filters["disponibilidade"]. -/
def dropByDisp (f : Filters) (v : Volunteer) : Bool :=
  match f.disponibilidade with
  | none => false
  | some d => pyTruthyStr d.value && decide (v.disponibilidade ≠ d)

/-- crud.get_volunteer: raw store lookup made deletion-aware: a record is
returned only when present and not soft-deleted. -/
def Crud.get_volunteer (db : FakeDatabase) (volunteer_id : Nat) :
    Option Volunteer :=
  match db.get_volunteer volunteer_id with
  | some v => if !v.is_deleted then some v else none
  | none => none

/-- crud.get_volunteers: fetch all records, keep the non-deleted ones that no
filter guard drops, then slice [skip : skip + limit]. -/
def Crud.get_volunteers (db : FakeDatabase) (skip limit : Nat) (f : Filters) :
    List Volunteer :=
  let all := db.get_all_volunteers
  let filtered := all.filter (fun v =>
    !v.is_deleted && !dropByStatus f v && !dropByCargo f v && !dropByDisp f v)
  (filtered.drop skip).take limit

/-- crud.create_volunteer: raise ValueError when the email is already taken
by a non-deleted record, otherwise build the domain record (id 0, creation
date = today, is_deleted False) and let the store assign the real id.  The
ValueError branch returns before any mutation, so the store is unchanged. -/
def Crud.create_volunteer (db : FakeDatabase) (volunteer : VolunteerCreate)
    (today : Date) : Except String Volunteer × FakeDatabase :=
  if db.email_exists volunteer.email none then
    (Except.error "Email já cadastrado", db)
  else
    let vol_domain : Volunteer :=
      { id := 0, nome := volunteer.nome, email := volunteer.email,
        telefone := volunteer.telefone,
        cargo_pretendido := volunteer.cargo_pretendido,
        disponibilidade := volunteer.disponibilidade,
        status := volunteer.status, data_inscricao := today,
        is_deleted := false }
    let (saved, db1) := db.add_volunteer vol_domain
    (Except.ok saved, db1)

/-- The email-conflict guard of crud.update_volunteer:
volunteer_update.email and db.email_exists(email, exclude_id=volunteer_id),
with str truthiness on the optional email. -/
def updEmailConflict (db : FakeDatabase) (volunteer_id : Nat)
    (u : VolunteerUpdate) : Bool :=
  match u.email with
  | none => false
  | some e => pyTruthyStr e && db.email_exists e (some volunteer_id)

/-- crud.update_volunteer: None when the id is absent or the record deleted;
ValueError when the supplied email belongs to another non-deleted record;
otherwise delegate the supplied fields to the store update. -/
def Crud.update_volunteer (db : FakeDatabase) (volunteer_id : Nat)
    (u : VolunteerUpdate) : Except String (Option Volunteer) × FakeDatabase :=
  match db.get_volunteer volunteer_id with
  | none => (Except.ok none, db)
  | some existing_vol =>
    if existing_vol.is_deleted then (Except.ok none, db)
    else if updEmailConflict db volunteer_id u then
      (Except.error "Email já cadastrado", db)
    else
      let (updated, db1) := db.update_volunteer volunteer_id u
      match updated with
      | some v1 => (Except.ok (some v1), db1)
      | none => (Except.ok none, db1)

/-- crud.delete_volunteer: False when the id is absent or the record already
deleted, otherwise delegate to the store soft delete. -/
def Crud.delete_volunteer (db : FakeDatabase) (volunteer_id : Nat) :
    Bool × FakeDatabase :=
  match db.get_volunteer volunteer_id with
  | none => (false, db)
  | some existing_vol =>
    if existing_vol.is_deleted then (false, db)
    else db.delete_volunteer volunteer_id

/-- crud.restore_volunteer: None only when the id has never existed (raw
lookup, ignoring is_deleted), otherwise clear the deleted flag and return
the record. -/
def Crud.restore_volunteer (db : FakeDatabase) (volunteer_id : Nat) :
    Option Volunteer × FakeDatabase :=
  match db.get_volunteer volunteer_id with
  | none => (none, db)
  | some _ =>
    let (restored, db1) := db.restore_volunteer volunteer_id
    match restored with
    | some v => (some v, db1)
    | none => (none, db1)

/-- The repository listing criterion as the specification states it: each
supplied (non-null) filter value keeps exactly the records whose
corresponding field equals it; written from the spec for comparison with
the code. -/
def matchesClaimCriteria (f : Filters) (v : Volunteer) : Bool :=
  (match f.status with
   | none => true
   | some s => decide (v.status = s)) &&
  (match f.cargo_pretendido with
   | none => true
   | some c => decide (v.cargo_pretendido = c)) &&
  (match f.disponibilidade with
   | none => true
   | some d => decide (v.disponibilidade = d))

/-- The listing criterion the code actually implements: as above, except
that a supplied empty-string cargo_pretendido imposes no constraint,
because an empty str is falsy in the guarding conjunction. -/
def matchesAmendedCriteria (f : Filters) (v : Volunteer) : Bool :=
  (match f.status with
   | none => true
   | some s => decide (v.status = s)) &&
  (match f.cargo_pretendido with
   | none => true
   | some c => decide (c = "") || decide (v.cargo_pretendido = c)) &&
  (match f.disponibilidade with
   | none => true
   | some d => decide (v.disponibilidade = d))

/-- Every StatusVoluntario member is truthy: its str value is nonempty. -/
theorem statusValue_truthy (s : StatusVoluntario) : pyTruthyStr s.value = true := by
  cases s <;> decide

/-- Every Disponibilidade member is truthy: its str value is nonempty. -/
theorem dispValue_truthy (d : Disponibilidade) : pyTruthyStr d.value = true := by
  cases d <;> decide

/-- A successful find? forces a successful any with the same predicate. -/
theorem any_of_find?_eq_some {p : Volunteer → Bool} {vs : List Volunteer}
    {v : Volunteer} (h : vs.find? p = some v) : vs.any p = true :=
  List.any_eq_true.mpr ⟨v, List.mem_of_find?_eq_some h, List.find?_some h⟩

/-- Looking up after modifyFirst finds the image of the old first match,
provided the image still satisfies the predicate. -/
theorem find?_modifyFirst {p : Volunteer → Bool} {g : Volunteer → Volunteer}
    {vs : List Volunteer} {v : Volunteer}
    (h : vs.find? p = some v) (hg : p (g v) = true) :
    (modifyFirst p g vs).find? p = some (g v) := by
  induction vs with
  | nil => simp at h
  | cons x xs ih =>
    by_cases hx : p x = true
    · rw [List.find?_cons_of_pos _ hx] at h
      injection h with h
      subst h
      simp only [modifyFirst, hx, if_true]
      exact List.find?_cons_of_pos _ hg
    · have hx' : p x = false := by simpa using hx
      rw [List.find?_cons_of_neg _ hx] at h
      simp only [modifyFirst, hx', Bool.false_eq_true, if_false]
      rw [List.find?_cons_of_neg _ hx]
      exact ih h

/-- Two successive in-place modifications of the first match collapse into
one, when the first modification preserves the predicate. -/
theorem modifyFirst_modifyFirst {p : Volunteer → Bool}
    (g g2 : Volunteer → Volunteer) (vs : List Volunteer)
    (hp : ∀ a, p a = true → p (g2 a) = true) :
    modifyFirst p g (modifyFirst p g2 vs) = modifyFirst p (fun a => g (g2 a)) vs := by
  induction vs with
  | nil => rfl
  | cons x xs ih =>
    by_cases hx : p x = true
    · simp only [modifyFirst, hx, if_true, hp x hx]
    · have hx' : p x = false := by simpa using hx
      simp only [modifyFirst, hx', Bool.false_eq_true, if_false, ih]

/-- Modifying the first match is the identity when the modification fixes
the record that find? returns. -/
theorem modifyFirst_eq_self {p : Volunteer → Bool} {g : Volunteer → Volunteer}
    {vs : List Volunteer} {v : Volunteer}
    (h : vs.find? p = some v) (hg : g v = v) :
    modifyFirst p g vs = vs := by
  induction vs with
  | nil => rfl
  | cons x xs ih =>
    by_cases hx : p x = true
    · rw [List.find?_cons_of_pos _ hx] at h
      injection h with h
      subst h
      simp only [modifyFirst, hx, if_true, hg]
    · have hx' : p x = false := by simp [hx]
      rw [List.find?_cons_of_neg _ hx] at h
      simp only [modifyFirst, hx', Bool.false_eq_true, if_false, ih h]

/-- Replacing the first match by a fixed record puts that record in the
list, whenever some match exists. -/
theorem mem_modifyFirst_const {p : Volunteer → Bool} (v : Volunteer)
    {vs : List Volunteer} (h : vs.any p = true) :
    v ∈ modifyFirst p (fun _ => v) vs := by
  induction vs with
  | nil => simp at h
  | cons x xs ih =>
    by_cases hx : p x = true
    · simp [modifyFirst, hx]
    · have hx' : p x = false := by simpa using hx
      have h2 : xs.any p = true := by simpa [List.any_cons, hx'] using h
      simp [modifyFirst, hx', ih h2]

/-- The record handed to dictInsert is in the resulting dict. -/
theorem mem_dictInsert (vs : List Volunteer) (v : Volunteer) :
    v ∈ dictInsert vs v := by
  unfold dictInsert
  split
  · exact mem_modifyFirst_const v (by assumption)
  · exact List.mem_append_right _ (List.mem_singleton.mpr rfl)

/-- C9: a freshly constructed FakeDatabase is pre-seeded with exactly five
volunteers carrying ids 1 through 5, of which only the one with id 5 is
soft-deleted, its id counter stands at 6, and the first record added
afterwards is assigned id 6. -/
theorem init_seed_contents :
    FakeDatabase.init.volunteers.map (fun v => (v.id, v.is_deleted)) =
      [(1, false), (2, false), (3, false), (4, false), (5, true)] ∧
    FakeDatabase.init.volunteers.length = 5 ∧
    FakeDatabase.init.next_id = 6 ∧
    (∀ v : Volunteer, ((FakeDatabase.init.add_volunteer v).1).id = 6) :=
  ⟨by decide, by decide, by decide, fun v => rfl⟩

/-- C1: under the store invariant that every stored id is below the counter,
add_volunteer assigns exactly the counter value (overwriting the id on the
given record), which is strictly greater than every previously assigned id;
the counter advances by one and the invariant is preserved, so ids are never
reused; and on a pristine store whose counter starts at 1, the first two
draws of the counter are 1 and 2. -/
theorem add_volunteer_ids_strictly_increasing
    (db : FakeDatabase) (v : Volunteer)
    (hinv : ∀ w ∈ db.volunteers, w.id < db.next_id) :
    (db.add_volunteer v).1.id = db.next_id ∧
    (∀ w ∈ db.volunteers, w.id < (db.add_volunteer v).1.id) ∧
    (db.add_volunteer v).2.next_id = db.next_id + 1 ∧
    (∀ w ∈ (db.add_volunteer v).2.volunteers,
        w.id < (db.add_volunteer v).2.next_id) ∧
    ((FakeDatabase.mk [] 1).get_next_id).1 = 1 ∧
    (((FakeDatabase.mk [] 1).get_next_id).2.get_next_id).1 = 2 := by
  have hany : db.volunteers.any (fun w => decide (w.id = db.next_id)) = false := by
    rw [List.any_eq_false]
    intro w hw
    simp only [decide_eq_true_eq]
    exact Nat.ne_of_lt (hinv w hw)
  have hvols : (db.add_volunteer v).2.volunteers
      = db.volunteers ++ [{ v with id := db.next_id }] := by
    simp [FakeDatabase.add_volunteer, FakeDatabase.get_next_id, dictInsert, hany]
  refine ⟨rfl, ?_, rfl, ?_, rfl, rfl⟩
  · intro w hw
    exact hinv w hw
  · intro w hw
    rw [hvols] at hw
    rcases List.mem_append.mp hw with h1 | h2
    · exact Nat.lt_succ_of_lt (hinv w h1)
    · rw [List.mem_singleton.mp h2]
      exact Nat.lt_succ_self _

/-- C1 witness: on the seeded store (counter at 6, stored ids 1..5) the next
insertion is assigned id 6 even though the inserted record carries id 42. -/
theorem add_volunteer_ids_strictly_increasing_witness :
    ((FakeDatabase.init.add_volunteer
        { id := 42, nome := "Novo", email := "novo@email.com",
          telefone := "(11) 91111-1111", cargo_pretendido := "Suporte",
          disponibilidade := .MANHA, status := .PENDENTE,
          data_inscricao := ⟨2024, 1, 1⟩, is_deleted := false }).1).id = 6 :=
  ((add_volunteer_ids_strictly_increasing FakeDatabase.init _
    (by decide)).1).trans (by decide)

/-- C2: a record with is_deleted = true is absent from the repository
listing for every skip, limit and filter choice, and the repository
get-by-id reports not found, while the raw store operations
get_all_volunteers and get_volunteer still return it. -/
theorem soft_deleted_hidden_from_repository
    (db : FakeDatabase) (r : Volunteer) (skip limit : Nat) (f : Filters)
    (hfind : db.get_volunteer r.id = some r)
    (hdel : r.is_deleted = true) :
    r ∉ Crud.get_volunteers db skip limit f ∧
    Crud.get_volunteer db r.id = none ∧
    r ∈ db.get_all_volunteers ∧
    db.get_volunteer r.id = some r := by
  refine ⟨?_, ?_, ?_, hfind⟩
  · intro hmem
    simp only [Crud.get_volunteers] at hmem
    have h1 := List.mem_of_mem_take hmem
    have h2 := List.mem_of_mem_drop h1
    have h3 := (List.mem_filter.mp h2).2
    rw [hdel] at h3
    simp at h3
  · simp [Crud.get_volunteer, hfind, hdel]
  · exact List.mem_of_find?_eq_some hfind

/-- C2 witness: the seeded soft-deleted volunteer (id 5) is reported as not
found by the repository get-by-id. -/
theorem soft_deleted_hidden_from_repository_witness :
    Crud.get_volunteer FakeDatabase.init 5 = none :=
  (soft_deleted_hidden_from_repository FakeDatabase.init
    { id := 5, nome := "Pedro Rocha", email := "pedro@email.com",
      telefone := "(11) 95555-5555", cargo_pretendido := "Coordenador",
      disponibilidade := .FLEXIVEL, status := .ATIVO,
      data_inscricao := ⟨2023, 5, 12⟩, is_deleted := true }
    0 100 ⟨none, none, none⟩ (by decide) (by decide)).2.1

/-- C3: with the creation email being the output of the boundary validator
(which lowercases), create_volunteer raises the duplicate-email ValueError
and leaves the store unchanged whenever some stored non-deleted volunteer
carries exactly that email; when every stored volunteer with that email is
soft-deleted, it succeeds and inserts the record with a fresh id, the
server-side registration date and is_deleted = false. -/
theorem create_volunteer_duplicate_email_policy
    (db : FakeDatabase) (vc : VolunteerCreate) (today : Date) (raw : String)
    (_hnorm : validate_email raw = Except.ok vc.email) :
    ((∃ v, v ∈ db.volunteers ∧ v.is_deleted = false ∧ v.email = vc.email) →
       Crud.create_volunteer db vc today
         = (Except.error "Email já cadastrado", db)) ∧
    ((∀ v, v ∈ db.volunteers → v.email = vc.email → v.is_deleted = true) →
       ∃ saved db1,
         Crud.create_volunteer db vc today = (Except.ok saved, db1) ∧
         saved ∈ db1.volunteers ∧ saved.email = vc.email ∧
         saved.id = db.next_id ∧ saved.is_deleted = false ∧
         saved.data_inscricao = today) := by
  constructor
  · rintro ⟨v, hv, hnd, he⟩
    have hex : db.email_exists vc.email none = true := by
      rw [FakeDatabase.email_exists, List.any_eq_true]
      exact ⟨v, hv, by simp [he, hnd]⟩
    simp [Crud.create_volunteer, hex]
  · intro hall
    have hex : db.email_exists vc.email none = false := by
      rw [FakeDatabase.email_exists, List.any_eq_false]
      intro v hv
      by_cases he : v.email = vc.email
      · simp [he, hall v hv he]
      · simp [he]
    refine ⟨⟨db.next_id, vc.nome, vc.email, vc.telefone, vc.cargo_pretendido,
      vc.disponibilidade, vc.status, today, false⟩,
      ⟨dictInsert db.volunteers
        ⟨db.next_id, vc.nome, vc.email, vc.telefone, vc.cargo_pretendido,
         vc.disponibilidade, vc.status, today, false⟩, db.next_id + 1⟩,
      ?_, ?_, rfl, rfl, rfl, rfl⟩
    · simp [Crud.create_volunteer, hex, FakeDatabase.add_volunteer,
        FakeDatabase.get_next_id]
    · exact mem_dictInsert _ _

/-- C3 witness: a payload reusing the email of the soft-deleted seed record
(id 5) passes the boundary validator and is accepted by the repository. -/
theorem create_volunteer_duplicate_email_policy_witness :
    ∃ saved db1,
      Crud.create_volunteer FakeDatabase.init
        { nome := "Pedro Novo", email := "pedro@email.com",
          telefone := "(11) 94444-4444", cargo_pretendido := "Suporte",
          disponibilidade := .TARDE, status := .PENDENTE } ⟨2024, 6, 1⟩
        = (Except.ok saved, db1) ∧
      saved ∈ db1.volunteers ∧ saved.email = "pedro@email.com" ∧
      saved.id = 6 ∧ saved.is_deleted = false ∧
      saved.data_inscricao = ⟨2024, 6, 1⟩ :=
  (create_volunteer_duplicate_email_policy FakeDatabase.init
    { nome := "Pedro Novo", email := "pedro@email.com",
      telefone := "(11) 94444-4444", cargo_pretendido := "Suporte",
      disponibilidade := .TARDE, status := .PENDENTE } ⟨2024, 6, 1⟩
    " PEDRO@email.com " rfl).2 (by decide)

/-- C4: whenever update_volunteer completes with an updated record, each of
the six updatable fields equals the supplied value if one was supplied (set
and non-None) and the prior stored value otherwise, while the registration
date, the id and the is_deleted flag of the record are unchanged, and the
store now holds exactly that record under the same id. -/
theorem update_volunteer_frame_condition
    (db : FakeDatabase) (volunteer_id : Nat) (u : VolunteerUpdate)
    (r v1 : Volunteer) (db1 : FakeDatabase)
    (hfind : db.get_volunteer volunteer_id = some r)
    (hok : Crud.update_volunteer db volunteer_id u
             = (Except.ok (some v1), db1)) :
    v1.nome = u.nome.getD r.nome ∧
    v1.email = u.email.getD r.email ∧
    v1.telefone = u.telefone.getD r.telefone ∧
    v1.cargo_pretendido = u.cargo_pretendido.getD r.cargo_pretendido ∧
    v1.disponibilidade = u.disponibilidade.getD r.disponibilidade ∧
    v1.status = u.status.getD r.status ∧
    v1.data_inscricao = r.data_inscricao ∧
    v1.id = r.id ∧
    v1.is_deleted = r.is_deleted ∧
    db1.get_volunteer volunteer_id = some v1 := by
  have hfind' : db.volunteers.find? (fun v => decide (v.id = volunteer_id))
      = some r := hfind
  simp only [Crud.update_volunteer, FakeDatabase.get_volunteer,
    FakeDatabase.update_volunteer, hfind'] at hok
  split_ifs at hok with hdel hconf
  · simp at hok
  · simp at hok
  · rw [Prod.ext_iff] at hok
    obtain ⟨hv, hdb⟩ := hok
    simp only [Except.ok.injEq, Option.some.injEq] at hv
    subst hv
    subst hdb
    have hid : r.id = volunteer_id := by
      simpa using List.find?_some hfind'
    have hg : (fun v => decide (v.id = volunteer_id)) (applyUpdateFields r u)
        = true := by
      simp [applyUpdateFields, hid]
    refine ⟨rfl, rfl, rfl, rfl, rfl, rfl, rfl, rfl, rfl, ?_⟩
    exact find?_modifyFirst hfind' hg

/-- C4 witness: updating the name of the seeded volunteer 1 stores a record
that differs from the prior one exactly in the name field. -/
theorem update_volunteer_frame_condition_witness :
    (Crud.update_volunteer FakeDatabase.init 1
        ⟨some "João A. Silva", none, none, none, none, none⟩).2.get_volunteer 1
      = some (applyUpdateFields
          { id := 1, nome := "João Silva", email := "joao@email.com",
            telefone := "(11) 99999-9999", cargo_pretendido := "Instrutor",
            disponibilidade := .MANHA, status := .ATIVO,
            data_inscricao := ⟨2023, 1, 15⟩, is_deleted := false }
          ⟨some "João A. Silva", none, none, none, none, none⟩) :=
  (update_volunteer_frame_condition FakeDatabase.init 1
    ⟨some "João A. Silva", none, none, none, none, none⟩
    _ _ _ rfl rfl).2.2.2.2.2.2.2.2.2

/-- C5: restore_volunteer succeeds for every id present in the store,
deleted or already active, returning the record with is_deleted cleared and
storing it; it reports not found, leaving the store untouched, exactly when
no record with that id exists. -/
theorem restore_volunteer_success_condition
    (db : FakeDatabase) (volunteer_id : Nat) :
    (∀ r, db.get_volunteer volunteer_id = some r →
       (Crud.restore_volunteer db volunteer_id).1
           = some { r with is_deleted := false } ∧
       ((Crud.restore_volunteer db volunteer_id).2).get_volunteer volunteer_id
           = some { r with is_deleted := false }) ∧
    (db.get_volunteer volunteer_id = none →
       Crud.restore_volunteer db volunteer_id = (none, db)) := by
  constructor
  · intro r hfind
    have hfind' : db.volunteers.find? (fun v => decide (v.id = volunteer_id))
        = some r := hfind
    have hid : r.id = volunteer_id := by
      simpa using List.find?_some hfind'
    have hg : (fun v => decide (v.id = volunteer_id))
        ({ r with is_deleted := false } : Volunteer) = true := by
      simp [hid]
    constructor
    · simp [Crud.restore_volunteer, FakeDatabase.restore_volunteer,
        FakeDatabase.get_volunteer, hfind']
    · simp only [Crud.restore_volunteer, FakeDatabase.restore_volunteer,
        FakeDatabase.get_volunteer, hfind']
      exact find?_modifyFirst hfind' hg
  · intro hnone
    have hnone' : db.volunteers.find? (fun v => decide (v.id = volunteer_id))
        = none := hnone
    simp [Crud.restore_volunteer, FakeDatabase.restore_volunteer,
      FakeDatabase.get_volunteer, hnone']

/-- C5 witness: restoring the seeded soft-deleted volunteer 5 returns the
record with the deleted flag cleared. -/
theorem restore_volunteer_success_condition_witness :
    (Crud.restore_volunteer FakeDatabase.init 5).1
      = some ({ id := 5, nome := "Pedro Rocha", email := "pedro@email.com",
                telefone := "(11) 95555-5555",
                cargo_pretendido := "Coordenador",
                disponibilidade := .FLEXIVEL, status := .ATIVO,
                data_inscricao := ⟨2023, 5, 12⟩,
                is_deleted := false } : Volunteer) :=
  (((restore_volunteer_success_condition FakeDatabase.init 5).1) _ rfl).1

/-- C6: the soft delete fails, leaving the store untouched, both when the id
is absent and when the record is already deleted; it succeeds and flips
is_deleted to true exactly when the record exists and is not deleted. -/
theorem delete_volunteer_not_found_policy
    (db : FakeDatabase) (volunteer_id : Nat) :
    (db.get_volunteer volunteer_id = none →
       Crud.delete_volunteer db volunteer_id = (false, db)) ∧
    (∀ r, db.get_volunteer volunteer_id = some r → r.is_deleted = true →
       Crud.delete_volunteer db volunteer_id = (false, db)) ∧
    (∀ r, db.get_volunteer volunteer_id = some r → r.is_deleted = false →
       (Crud.delete_volunteer db volunteer_id).1 = true ∧
       ((Crud.delete_volunteer db volunteer_id).2).get_volunteer volunteer_id
           = some { r with is_deleted := true }) := by
  refine ⟨?_, ?_, ?_⟩
  · intro hnone
    simp [Crud.delete_volunteer, hnone]
  · intro r hfind hdel
    simp [Crud.delete_volunteer, hfind, hdel]
  · intro r hfind hdel
    have hfind' : db.volunteers.find? (fun v => decide (v.id = volunteer_id))
        = some r := hfind
    have hany := any_of_find?_eq_some hfind'
    have hid : r.id = volunteer_id := by
      simpa using List.find?_some hfind'
    have hg : (fun v => decide (v.id = volunteer_id))
        ({ r with is_deleted := true } : Volunteer) = true := by
      simp [hid]
    constructor
    · simp [Crud.delete_volunteer, hfind, hdel,
        FakeDatabase.delete_volunteer, hany]
    · simp only [Crud.delete_volunteer, FakeDatabase.get_volunteer, hfind',
        hdel, FakeDatabase.delete_volunteer, hany, Bool.false_eq_true,
        if_false, if_true]
      exact @find?_modifyFirst (fun v => decide (v.id = volunteer_id))
        (fun w => { w with is_deleted := true }) db.volunteers r hfind' hg

/-- C6 witness: soft-deleting the already-deleted seeded volunteer 5 reports
failure and leaves the store unchanged. -/
theorem delete_volunteer_not_found_policy_witness :
    Crud.delete_volunteer FakeDatabase.init 5 = (false, FakeDatabase.init) :=
  ((delete_volunteer_not_found_policy FakeDatabase.init 5).2.1) _ rfl rfl

/-- The str value of a StatusVoluntario member is never empty. -/
theorem statusValue_ne_empty (s : StatusVoluntario) :
    decide (s.value = "") = false := by
  cases s <;> decide

/-- The str value of a Disponibilidade member is never empty. -/
theorem dispValue_ne_empty (d : Disponibilidade) :
    decide (d.value = "") = false := by
  cases d <;> decide

/-- C7 counterexample: on the seeded store, supplying the non-null filter
value cargo_pretendido = "" keeps all four visible records, although none of
them has cargo_pretendido equal to "": an empty str is falsy, so this
supplied non-null criterion removes nothing. -/
theorem get_volunteers_empty_cargo_filter_cex :
    (Crud.get_volunteers FakeDatabase.init 0 100
        ⟨none, some "", none⟩).length = 4 ∧
    ((Crud.get_volunteers FakeDatabase.init 0 100
        ⟨none, some "", none⟩).all
      (fun v => matchesClaimCriteria ⟨none, some "", none⟩ v)) = false :=
  ⟨by decide, by decide⟩

/-- C7 (amended): get_volunteers returns exactly the non-deleted records
that match every supplied filter criterion by exact equality — except that a
supplied empty-string cargo_pretendido imposes no constraint — ANDed, with
absent criteria imposing none, then paginated by drop skip / take limit. -/
theorem get_volunteers_matches_amended_criteria
    (db : FakeDatabase) (skip limit : Nat) (f : Filters) :
    Crud.get_volunteers db skip limit f =
      (((db.get_all_volunteers).filter
          (fun v => !v.is_deleted && matchesAmendedCriteria f v)).drop
        skip).take limit := by
  simp only [Crud.get_volunteers]
  congr 2
  apply List.filter_congr
  intro v _
  rcases f with ⟨st, cg, dp⟩
  cases st <;> cases cg <;> cases dp <;>
    simp [dropByStatus, dropByCargo, dropByDisp, matchesAmendedCriteria,
      statusValue_ne_empty, dispValue_ne_empty, pyTruthyStr, decide_not,
      Bool.and_assoc, Bool.not_and, Bool.not_not, Bool.or_comm]

/-- C7 witness: the first page of two of the unfiltered listing on the
seeded store agrees with the amended characterization. -/
theorem get_volunteers_matches_amended_criteria_witness :
    Crud.get_volunteers FakeDatabase.init 0 2 ⟨none, none, none⟩ =
      (((FakeDatabase.init.get_all_volunteers).filter
          (fun v => !v.is_deleted &&
            matchesAmendedCriteria ⟨none, none, none⟩ v)).drop 0).take 2 :=
  get_volunteers_matches_amended_criteria FakeDatabase.init 0 2
    ⟨none, none, none⟩

/-- C8: soft-deleting a visible volunteer and then restoring it returns the
store to exactly its previous state, so the volunteer reappears in the
unfiltered listing with every field value identical to before the deletion. -/
theorem delete_restore_roundtrip
    (db : FakeDatabase) (r : Volunteer) (limit : Nat)
    (hfind : db.get_volunteer r.id = some r)
    (hvis : r.is_deleted = false)
    (hlimit : (db.get_all_volunteers).length ≤ limit) :
    (Crud.restore_volunteer (Crud.delete_volunteer db r.id).2 r.id).2 = db ∧
    r ∈ Crud.get_volunteers
        (Crud.restore_volunteer (Crud.delete_volunteer db r.id).2 r.id).2
        0 limit ⟨none, none, none⟩ := by
  have hfind' : db.volunteers.find? (fun v => decide (v.id = r.id))
      = some r := hfind
  have hany := any_of_find?_eq_some hfind'
  have hg1 : (fun v => decide (v.id = r.id))
      ({ r with is_deleted := true } : Volunteer) = true := by simp
  have hf2 := @find?_modifyFirst (fun v => decide (v.id = r.id))
    (fun v => { v with is_deleted := true }) db.volunteers r hfind' hg1
  have hdb1 : (Crud.delete_volunteer db r.id).2
      = { db with
          volunteers := modifyFirst (fun v => decide (v.id = r.id))
            (fun v => { v with is_deleted := true }) db.volunteers } := by
    simp only [Crud.delete_volunteer, FakeDatabase.get_volunteer, hfind',
      hvis, FakeDatabase.delete_volunteer, hany, Bool.false_eq_true,
      if_false, if_true]
  have hfix : ({ r with is_deleted := false } : Volunteer) = r := by
    rw [← hvis]
  have heq : (Crud.restore_volunteer (Crud.delete_volunteer db r.id).2 r.id).2
      = db := by
    rw [hdb1]
    simp only [Crud.restore_volunteer, FakeDatabase.get_volunteer,
      FakeDatabase.restore_volunteer, hf2]
    rw [@modifyFirst_modifyFirst (fun v => decide (v.id = r.id))
      (fun w => { w with is_deleted := false })
      (fun v => { v with is_deleted := true }) db.volunteers (fun a h => h)]
    rw [modifyFirst_eq_self hfind' hfix]
  refine ⟨heq, ?_⟩
  rw [heq]
  have hmem : r ∈ db.volunteers := List.mem_of_find?_eq_some hfind'
  have hkeep : (!r.is_deleted && !dropByStatus ⟨none, none, none⟩ r &&
      !dropByCargo ⟨none, none, none⟩ r &&
      !dropByDisp ⟨none, none, none⟩ r) = true := by
    simp [hvis, dropByStatus, dropByCargo, dropByDisp]
  simp only [Crud.get_volunteers, FakeDatabase.get_all_volunteers,
    List.drop_zero]
  have hlen : (db.volunteers.filter (fun v =>
      !v.is_deleted && !dropByStatus ⟨none, none, none⟩ v &&
      !dropByCargo ⟨none, none, none⟩ v &&
      !dropByDisp ⟨none, none, none⟩ v)).length ≤ limit :=
    le_trans (List.length_filter_le _ _) hlimit
  rw [List.take_of_length_le hlen]
  exact List.mem_filter.mpr ⟨hmem, hkeep⟩

/-- C8 witness: deleting and restoring the seeded volunteer 2 leaves the
store in its original state. -/
theorem delete_restore_roundtrip_witness :
    (Crud.restore_volunteer (Crud.delete_volunteer FakeDatabase.init 2).2
       2).2 = FakeDatabase.init :=
  (delete_restore_roundtrip FakeDatabase.init
    ({ id := 2, nome := "Maria Santos", email := "maria@email.com",
       telefone := "(11) 98888-8888", cargo_pretendido := "Organizador",
       disponibilidade := .TARDE, status := .ATIVO,
       data_inscricao := ⟨2023, 2, 20⟩, is_deleted := false } : Volunteer)
    100 rfl rfl (by decide)).1

/-- A store holding exactly one non-deleted volunteer whose stored email is
the lowercase x@y.com. -/
def lowerEmailDb : FakeDatabase :=
  { volunteers :=
      [{ id := 1, nome := "Xavier", email := "x@y.com",
         telefone := "(11) 90000-0000", cargo_pretendido := "Instrutor",
         disponibilidade := .MANHA, status := .ATIVO,
         data_inscricao := ⟨2023, 1, 1⟩, is_deleted := false }],
    next_id := 2 }

/-- C10: email_exists holds exactly when some stored record matches the
queried email by exact, case-sensitive string equality, is not deleted, and
is not the excluded id; hence on a store holding only the non-deleted email
x@y.com, querying X@Y.com finds nothing while x@y.com does, and it is the
boundary validator that lowercases X@Y.com to x@y.com. -/
theorem email_exists_exact_case_sensitive :
    (∀ (db : FakeDatabase) (email : String) (exclude_id : Option Nat),
       db.email_exists email exclude_id = true ↔
         ∃ v, v ∈ db.volunteers ∧ v.email = email ∧ v.is_deleted = false ∧
           (∀ x, exclude_id = some x → v.id ≠ x)) ∧
    lowerEmailDb.email_exists "X@Y.com" none = false ∧
    lowerEmailDb.email_exists "x@y.com" none = true ∧
    validate_email "X@Y.com" = Except.ok "x@y.com" := by
  refine ⟨?_, by decide, by decide, rfl⟩
  intro db email exclude_id
  rw [FakeDatabase.email_exists, List.any_eq_true]
  constructor
  · rintro ⟨v, hv, hp⟩
    cases exclude_id with
    | none =>
      simp only [Bool.and_true, Bool.and_eq_true, decide_eq_true_eq,
        Bool.not_eq_true'] at hp
      exact ⟨v, hv, hp.1, hp.2, fun x hx => by cases hx⟩
    | some x =>
      simp only [Bool.and_eq_true, decide_eq_true_eq,
        Bool.not_eq_true'] at hp
      exact ⟨v, hv, hp.1.1, hp.1.2, fun y hy => by
        injection hy with hy
        rw [← hy]
        exact hp.2⟩
  · rintro ⟨v, hv, he, hd, hx⟩
    refine ⟨v, hv, ?_⟩
    cases exclude_id with
    | none => simp [he, hd]
    | some x => simp [he, hd, hx x rfl]

/-- C10 witness: the seeded store reports joao@email.com as taken. -/
theorem email_exists_exact_case_sensitive_witness :
    FakeDatabase.init.email_exists "joao@email.com" none = true :=
  (email_exists_exact_case_sensitive.1 FakeDatabase.init "joao@email.com"
    none).mpr
    ⟨{ id := 1, nome := "João Silva", email := "joao@email.com",
       telefone := "(11) 99999-9999", cargo_pretendido := "Instrutor",
       disponibilidade := .MANHA, status := .ATIVO,
       data_inscricao := ⟨2023, 1, 15⟩, is_deleted := false },
     by decide, rfl, rfl, fun x hx => by cases hx⟩
